import Mathlib

/-!
# CardLifecycle-tracker: verification of the journey state machine,
# analytics and notification fanout

Shallow embedding of the backend of the CardLifecycle-tracker repository:
`models/CardJourney.js`, `services/cardService.js`,
`services/analyticsService.js` and the websocket configuration
(`initializeWebSocket` / `broadcast`).

Conventions of the embedding:
* JavaScript strings are `String`; an optional / possibly-`undefined`
  field is `Option String`, and JavaScript truthiness of such a field
  (`if (x)`) is `truthy` below (`undefined`, `null` and `""` are falsy).
* Timestamps are milliseconds since the epoch as `Nat`; durations are
  `Int` (a JavaScript subtraction of two dates can be negative).
* `Math.round(a / b)` on an exact integer ratio is `jsRound a b`
  (round half toward positive infinity, as JavaScript does).
* MongoDB documents are Lean structures; the collection is a
  `List CardDoc`; `findOne` is `List.find?` on the key.
-/

namespace CardTracker

/-- JavaScript truthiness of an optional string field:
`undefined`/`null` (here `none`) and the empty string are falsy. -/
def truthy : Option String → Bool
  | none => false
  | some s => !(s == "")

/-- `Math.round (a / b)` for integers `a`, `b > 0`, computed exactly:
JavaScript rounds half toward positive infinity, which on the exact
rational `a / b` is `⌊(2a + b) / (2b)⌋`. -/
def jsRound (a : Int) (b : Int) : Int :=
  Int.fdiv (2 * a + b) (2 * b)

/-- One element of the `journey` array
(`journeyEventSchema` in `models/CardJourney.js`). -/
structure JourneyEvent where
  stage : String
  timestamp : Nat
  source : String
  location : Option String := none
  operatorId : Option String := none
  batchId : Option String := none
  trackingId : Option String := none
  previousStage : Option String := none
  failureReason : Option String := none
  durationMinutes : Option Int := none
  deriving Repr, DecidableEq

/-- A `card_journeys` document (`cardJourneySchema`).
`metadata.region` is kept as `regionTag`; the other `metadata` keys and
`eventData` payloads play no role in any claim and are omitted. -/
structure CardDoc where
  cardId : String
  customerId : String
  customerName : Option String := none
  mobileNumber : Option String := none
  panMasked : String := ""
  applicationId : Option String := none
  currentStatus : String
  priority : String := "STANDARD"
  address : Option String := none
  estimatedDelivery : Option Nat := none
  actualDelivery : Option Nat := none
  failureReason : Option String := none
  retryCount : Int := 0
  journey : List JourneyEvent := []
  regionTag : Option String := none
  createdAt : Nat := 0
  deriving Repr, DecidableEq

/-- The `enum` list shared by `journeyEventSchema.stage` and
`cardJourneySchema.currentStatus` in `models/CardJourney.js`. -/
def stageEnum : List String :=
  ["APPROVED", "QUEUED_FOR_EMBOSSING", "IN_EMBOSSING", "EMBOSSING_COMPLETE",
   "EMBOSSING_FAILED", "DISPATCHED", "IN_TRANSIT", "OUT_FOR_DELIVERY",
   "DELIVERED", "DELIVERY_FAILED", "RETURNED", "DESTROYED"]

/-- The `priority` enum of `cardJourneySchema`. -/
def priorityEnum : List String := ["STANDARD", "EXPRESS", "URGENT"]

/-- Mongoose validation run by `save()`: every journey event's `stage`
and the document's `currentStatus` must be in the schema enum, the
`priority` in its enum, and the required string paths non-empty.
(`findOneAndUpdate` does *not* run these validators: mongoose update
validation is off by default, and `updateCardStatus` does not enable it.) -/
def validateDoc (d : CardDoc) : Bool :=
  stageEnum.contains d.currentStatus &&
  priorityEnum.contains d.priority &&
  !(d.cardId == "") && !(d.customerId == "") &&
  truthy d.mobileNumber && !(d.panMasked == "") &&
  d.journey.all (fun e => stageEnum.contains e.stage && !(e.source == ""))

/-- Errors surfaced by the service layer (`cardService.js`). The code
throws plain `Error`s; we distinguish them by their origin. -/
inductive CardError where
  | missingFields
  | notFound
  | validationError
  | duplicateKey
  | queryTooShort
  deriving Repr, DecidableEq

/-- The payload of a `broadcast(type, data)` call, as far as the claims
need it: the event type and the card/status fields it carries. -/
structure BroadcastMsg where
  type : String
  cardId : String
  previousStatus : Option String := none
  newStatus : Option String := none
  deriving Repr, DecidableEq

/-- The request body of `createCard` (fields destructured from
`cardData`; every one may be absent). -/
structure CardData where
  cardId : Option String := none
  customerId : Option String := none
  customerName : Option String := none
  mobileNumber : Option String := none
  panMasked : Option String := none
  applicationId : Option String := none
  priority : Option String := none
  address : Option String := none
  message : Option String := none
  deriving Repr, DecidableEq

/-- `extractRegionFromAddress` in `cardService.js`. -/
def extractRegionFromAddress (address : Option String) : String :=
  match address with
  | none => "Unknown"
  | some a =>
    let lower := a.toLower
    if lower.containsSubstr "mumbai" then "Mumbai"
    else if lower.containsSubstr "delhi" then "Delhi"
    else if lower.containsSubstr "bangalore" then "Bangalore"
    else if lower.containsSubstr "chennai" then "Chennai"
    else if lower.containsSubstr "hyderabad" then "Hyderabad"
    else if lower.containsSubstr "pune" then "Pune"
    else if lower.containsSubstr "kolkata" then "Kolkata"
    else "Other"

/-- `getLocationMultiplier` in `cardService.js`, with the multiplier
scaled by ten to stay in integers (1.0/1.1/1.2/1.5 → 10/11/12/15). -/
def getLocationMultiplierTenths (region : String) : Nat :=
  if region == "Mumbai" || region == "Delhi" then 10
  else if region == "Bangalore" || region == "Chennai" ||
          region == "Hyderabad" then 11
  else if region == "Pune" || region == "Kolkata" then 12
  else 15

/-- `calculateEstimatedDelivery` in `cardService.js`:
`now + baseHours × multiplier` hours, where `baseHours` is 72 for
EXPRESS, 48 for URGENT and 96 otherwise. The source advances the date
with `setHours`; we idealize that calendar arithmetic as adding the
corresponding milliseconds (no claim depends on this field). -/
def calculateEstimatedDelivery (now : Nat) (priority : String)
    (address : Option String) : Nat :=
  let baseHours : Nat :=
    if priority == "EXPRESS" then 72
    else if priority == "URGENT" then 48 else 96
  now + baseHours *
    getLocationMultiplierTenths (extractRegionFromAddress address) * 360000

/-- The document built by `new CardJourney({...})` inside `createCard`.
`encrypt` is the PII layer's encryption (external collaborator, passed
as a function); the first journey event's `timestamp` is the schema
default `Date.now`. -/
def buildCardDoc (encrypt : String → String) (now : Nat) (data : CardData) :
    CardDoc :=
  { cardId := data.cardId.getD ""
    customerId := data.customerId.getD ""
    customerName := data.customerName
    mobileNumber := (data.mobileNumber.getD "") |> encrypt |> some
    panMasked := data.panMasked.getD ""
    applicationId := data.applicationId
    currentStatus := "USER_CREATED"
    priority := data.priority.getD "STANDARD"
    address := data.address.map encrypt
    estimatedDelivery :=
      some (calculateEstimatedDelivery now (data.priority.getD "STANDARD")
        data.address)
    actualDelivery := none
    failureReason := none
    retryCount := 0
    journey := [{ stage := "USER_CREATED"
                  timestamp := now
                  source := "card_management_service"
                  location := some "System"
                  operatorId := some "AUTO_APPROVAL" }]
    regionTag := some (extractRegionFromAddress data.address)
    createdAt := now }

/-- `createCard` in `cardService.js`: field validation, document
construction, then `save()` — which runs mongoose validation and
reports a duplicate key (error code 11000, mapped to
`'Card ID already exists'`) when the `cardId` already exists. -/
def createCard (encrypt : String → String) (now : Nat)
    (db : List CardDoc) (data : CardData) :
    Except CardError (List CardDoc × CardDoc × BroadcastMsg) :=
  if !(truthy data.cardId && truthy data.customerId &&
       truthy data.mobileNumber && truthy data.panMasked) then
    .error .missingFields
  else
    let doc := buildCardDoc encrypt now data
    if !validateDoc doc then
      .error .validationError
    else if db.any (fun c => c.cardId == doc.cardId) then
      .error .duplicateKey
    else
      .ok (db ++ [doc], doc,
           { type := "card_created", cardId := doc.cardId,
             newStatus := some doc.currentStatus })

/-- The request body of `updateCardStatus` (`statusData`). -/
structure StatusData where
  status : Option String := none
  source : Option String := none
  location : Option String := none
  operatorId : Option String := none
  batchId : Option String := none
  trackingId : Option String := none
  failureReason : Option String := none
  deriving Repr, DecidableEq

/-- The journey event `updateCardStatus` builds once the card has been
found: the elapsed duration is measured from the last event's timestamp
to `now` and stored on this *new* event (the previous event is never
touched). `Date.now()` and the pushed subdocument's default timestamp
are the same call instant `now`. -/
def mkStatusEvent (now : Nat) (d : CardDoc) (sd : StatusData) :
    JourneyEvent :=
  { stage := sd.status.getD ""
    timestamp := now
    source := sd.source.getD ""
    location := sd.location
    operatorId := sd.operatorId
    batchId := sd.batchId
    trackingId := sd.trackingId
    previousStage := some d.currentStatus
    failureReason := sd.failureReason
    durationMinutes := (d.journey.getLast?).map
      (fun e => jsRound ((now : Int) - (e.timestamp : Int)) 60000) }

/-- The `findOneAndUpdate` update document of `updateCardStatus`
applied to the found card, paired with the `status_updated` broadcast
it is followed by. -/
def applyStatusUpdate (now : Nat) (d : CardDoc) (sd : StatusData) :
    CardDoc × BroadcastMsg :=
  ({ d with
     currentStatus := sd.status.getD ""
     journey := d.journey ++ [mkStatusEvent now d sd]
     failureReason := if truthy sd.failureReason then sd.failureReason
                      else d.failureReason
     retryCount := if truthy sd.failureReason then d.retryCount + 1
                   else d.retryCount
     actualDelivery := if sd.status.getD "" == "DELIVERED" then some now
                       else d.actualDelivery },
   { type := "status_updated", cardId := d.cardId,
     previousStatus := some d.currentStatus, newStatus := sd.status })

/-- `updateCardStatus` in `cardService.js`: require truthy `status` and
`source`, `findOne` the card (else `'Card not found'`), then apply the
update and broadcast `status_updated`. No transition table is consulted
and `findOneAndUpdate` runs no validators. -/
def updateCardStatus (now : Nat) (db : List CardDoc) (cardId : String)
    (sd : StatusData) :
    Except CardError (List CardDoc × CardDoc × BroadcastMsg) :=
  if !(truthy sd.status && truthy sd.source) then
    .error .missingFields
  else
    match db.find? (fun c => c.cardId == cardId) with
    | none => .error .notFound
    | some d =>
      let (d', msg) := applyStatusUpdate now d sd
      .ok (db.map (fun c => if c.cardId == cardId then d' else c), d', msg)

/-- `pat` occurs at the head of `hay` (character lists). -/
def startsWithChars : List Char → List Char → Bool
  | _, [] => true
  | [], _ :: _ => false
  | h :: hs, p :: ps => h == p && startsWithChars hs ps

/-- `pat` occurs somewhere in `hay` (character lists). -/
def containsChars : List Char → List Char → Bool
  | [], pat => pat.isEmpty
  | h :: hs, pat => startsWithChars (h :: hs) pat || containsChars hs pat

/-- `new RegExp(query, 'i').test(field)` for a query without regex
metacharacters: case-insensitive substring containment. -/
def ciContains (hay pat : String) : Bool :=
  containsChars (hay.toList.map Char.toLower) (pat.toList.map Char.toLower)

/-- Case-insensitive containment against a possibly-absent field: a
MongoDB regex criterion does not match a document missing the field. -/
def ciContainsOpt (hay : Option String) (pat : String) : Bool :=
  match hay with
  | none => false
  | some h => ciContains h pat

/-- `/^\d+$/.test(query)`. -/
def isAllDigits (q : String) : Bool :=
  !(q == "") && q.toList.all Char.isDigit

/-- The search criteria of `searchCards`: which fields are matched
depends on the *shape* of the query (CRD prefix → `cardId`; `*` and
length ≥ 8 → exact `panMasked`; all digits and length ≥ 4 →
`customerName`/`customerId`; otherwise
`customerName`/`customerId`/`applicationId`). -/
def matchesSearch (q : String) (d : CardDoc) : Bool :=
  if startsWithChars (q.toList.map Char.toUpper) ['C', 'R', 'D'] then
    ciContains d.cardId q
  else if q.toList.contains '*' && decide (q.length ≥ 8) then
    d.panMasked == q
  else if isAllDigits q && decide (q.length ≥ 4) then
    ciContainsOpt d.customerName q || ciContains d.customerId q
  else
    ciContainsOpt d.customerName q || ciContains d.customerId q ||
      ciContainsOpt d.applicationId q

/-- `searchCards` in `cardService.js`: queries shorter than 3
characters are rejected; otherwise the criteria of `matchesSearch`
select the documents, sorted by `createdAt` descending (stable) and
limited to 10. -/
def searchCards (q : String) (db : List CardDoc) :
    Except CardError (List CardDoc) :=
  if q.length < 3 then
    .error .queryTooShort
  else
    .ok (((db.filter (matchesSearch q)).insertionSort
            (fun a b => b.createdAt ≤ a.createdAt)).take 10)

/-- The object returned to callers after `sanitizeCardData`: the
`delete sanitized.mobileNumber` / `delete sanitized.address` lines mean
the returned record has no such fields; the display fields are added
when the encrypted originals were present. -/
structure SanitizedCard where
  cardId : String
  customerId : String
  customerName : Option String := none
  panMasked : String := ""
  applicationId : Option String := none
  currentStatus : String
  priority : String := "STANDARD"
  estimatedDelivery : Option Nat := none
  actualDelivery : Option Nat := none
  failureReason : Option String := none
  retryCount : Int := 0
  journey : List JourneyEvent := []
  mobileDisplay : Option String := none
  addressDisplay : Option String := none
  deriving Repr, DecidableEq

/-- JavaScript `s.slice(-4)`: the last four characters, or the whole
string when it is shorter than four characters. -/
def sliceLast4 (s : String) : String :=
  ⟨s.toList.drop (s.toList.length - 4)⟩

/-- `sanitizeCardData` in `cardService.js`. `decrypt` is the PII
layer's decryption (external collaborator); `none` models a throwing
`decrypt`, handled by the `catch` branches. -/
def sanitizeCardData (decrypt : String → Option String) (d : CardDoc) :
    SanitizedCard :=
  let mobileDisplay : Option String :=
    if truthy d.mobileNumber then
      match decrypt (d.mobileNumber.getD "") with
      | some plain => some ("+91-****-**" ++ sliceLast4 plain)
      | none => some "+91-****-****"
    else none
  let addressDisplay : Option String :=
    if truthy d.address then
      match decrypt (d.address.getD "") with
      | some plain =>
        let parts := plain.splitOn ","
        if parts.length > 1 then
          some ((String.intercalate "," (parts.drop (parts.length - 2))).trim)
        else some "Address on file"
      | none => some "Address on file"
    else none
  { cardId := d.cardId
    customerId := d.customerId
    customerName := d.customerName
    panMasked := d.panMasked
    applicationId := d.applicationId
    currentStatus := d.currentStatus
    priority := d.priority
    estimatedDelivery := d.estimatedDelivery
    actualDelivery := d.actualDelivery
    failureReason := d.failureReason
    retryCount := d.retryCount
    journey := d.journey
    mobileDisplay := mobileDisplay
    addressDisplay := addressDisplay }

/-- `getCardById` followed by `sanitizeCardData`. -/
def getCardById (decrypt : String → Option String) (db : List CardDoc)
    (cardId : String) : Except CardError SanitizedCard :=
  match db.find? (fun c => c.cardId == cardId) with
  | none => .error .notFound
  | some d => .ok (sanitizeCardData decrypt d)

/-- The sanitized value `createCard` returns to its caller. -/
def createCardApi (decrypt : String → Option String)
    (encrypt : String → String) (now : Nat) (db : List CardDoc)
    (data : CardData) : Except CardError SanitizedCard :=
  (createCard encrypt now db data).map
    (fun r => sanitizeCardData decrypt r.2.1)

/-- The sanitized value `updateCardStatus` returns to its caller. -/
def updateCardStatusApi (decrypt : String → Option String) (now : Nat)
    (db : List CardDoc) (cardId : String) (sd : StatusData) :
    Except CardError SanitizedCard :=
  (updateCardStatus now db cardId sd).map
    (fun r => sanitizeCardData decrypt r.2.1)

/-- The sanitized list `searchCards` returns to its caller. -/
def searchCardsApi (decrypt : String → Option String) (q : String)
    (db : List CardDoc) : Except CardError (List SanitizedCard) :=
  (searchCards q db).map (List.map (sanitizeCardData decrypt))

/-! ## Bottleneck analytics (`analyticsService.js`) -/

/-- MongoDB `$round : [x, 0]` applied to the exact ratio `num / den`
(`den > 0`): round half to even, computed in integer arithmetic. -/
def mongoRound (num den : Int) : Int :=
  let f := Int.fdiv num den
  let r := num - f * den
  if 2 * r < den then f
  else if 2 * r > den then f + 1
  else if f % 2 = 0 then f else f + 1

/-- `calculateMedian` in `analyticsService.js`:
`Math.round((min + max) / 2)` — explicitly a shortcut
("Simple median calculation"), not the median of the sample. -/
def calculateMedian (minDuration maxDuration : Int) : Int :=
  jsRound (minDuration + maxDuration) 2

/-- Severity `$switch` of the analysis pipeline: the source compares
the ratio `delayedCount / count` against 0.3, 0.2 and 0.1; on natural
numbers with `count > 0` those comparisons are exactly the integer
cross-multiplications used here (proved as part of the C7 theorem). -/
def severityOf (delayedCount count : Nat) : String :=
  if 10 * delayedCount > 3 * count then "critical"
  else if 5 * delayedCount > count then "high"
  else if 10 * delayedCount > count then "medium"
  else "low"

/-- Per-stage group statistics computed by the aggregation pipeline in
`analyzeBottlenecks`, for a group whose (positive) `durationMinutes`
samples are `durations`. The `$slice` position for the 95th percentile
is written `Math.floor("$count" * 0.95)` in the source: that expression
is evaluated in JavaScript when the pipeline object is built, and
`"$count" * 0.95` is `NaN`, so the built pipeline carries no valid
integral slice position — modelled as `p95SlicePos = none`. -/
structure StageStats where
  count : Nat
  avgDuration : Int
  minDuration : Int
  maxDuration : Int
  p95SlicePos : Option Int
  delayedCount : Nat
  severity : String
  deriving Repr, DecidableEq

/-- The group-level computation of the pipeline. -/
def analyzeGroup (durations : List Int) : StageStats :=
  { count := durations.length
    avgDuration := mongoRound durations.sum durations.length
    minDuration := (durations.min?).getD 0
    maxDuration := (durations.max?).getD 0
    p95SlicePos := none
    delayedCount := durations.countP (fun x => decide (x > 480))
    severity := severityOf (durations.countP (fun x => decide (x > 480)))
                  durations.length }

/-- The two `$match` filters a group must survive (`count ≥ 5` minimum
sample, `avgDuration > 30` interest threshold), plus the event-level
filter that every sample is a recorded positive duration. -/
def groupSurvives (durations : List Int) : Bool :=
  durations.all (fun x => decide (x > 0)) &&
  decide (durations.length ≥ 5) &&
  decide ((analyzeGroup durations).avgDuration > 30)

/-- The `medianDurationMinutes` value persisted for a surviving group
by the `BottleneckAnalysis.findOneAndUpdate` upsert. -/
def persistedMedian (durations : List Int) : Int :=
  calculateMedian (analyzeGroup durations).minDuration
    (analyzeGroup durations).maxDuration

/-- Modelled from the spec: the true median of the sorted duration
list ("true nearest-rank-or-interpolated percentile over the sorted
sample", §9; the median conjunct of the C6 claim). Middle element for
odd length, mean of the two middle elements for even length. -/
def trueMedian (durations : List Int) : ℚ :=
  let sorted := durations.insertionSort (· ≤ ·)
  let n := sorted.length
  if n % 2 = 1 then ((sorted.getD (n / 2) 0 : Int) : ℚ)
  else (((sorted.getD (n / 2 - 1) 0 : Int) : ℚ) +
        ((sorted.getD (n / 2) 0 : Int) : ℚ)) / 2

/-! ## Notification fanout (`config/websocket.js`) -/

/-- A connected websocket handle: whether `readyState === OPEN` at
broadcast time, and whether a `send` on it would succeed. -/
structure WSClient where
  id : Nat
  isOpen : Bool
  sendOk : Bool
  deriving Repr, DecidableEq

/-- The `broadcast` loop of `config/websocket.js` over the connected
set: a handle with `readyState === OPEN` gets a `send` — which on
failure deletes the handle from the set — and a non-open handle is
skipped (it stays in the set). Returns (clients the message was sent
to, remaining connected set). -/
def broadcastFanout : List WSClient → List WSClient × List WSClient
  | [] => ([], [])
  | c :: rest =>
    let r := broadcastFanout rest
    if c.isOpen then
      if c.sendOk then (c :: r.1, c :: r.2)
      else r
    else (r.1, c :: r.2)

/-- The periodic 30-second cleanup `setInterval` in
`initializeWebSocket`: drop every handle whose `readyState` is not
`OPEN`. -/
def cleanupSweep (clients : List WSClient) : List WSClient :=
  clients.filter (·.isOpen)

/-! ## The spec's state-machine table (comparator for claim C1) -/

/-- Modelled from the spec: the §4.1 reachability table, with the
spec's abstract stage names replaced by the code's
(`CREATED ≙ APPROVED`, `QUEUED ≙ QUEUED_FOR_EMBOSSING`,
`PROCESSING ≙ IN_EMBOSSING`, `PROCESSING_COMPLETE ≙ EMBOSSING_COMPLETE`,
`PROCESSING_FAILED ≙ EMBOSSING_FAILED`). This table appears nowhere in
the backend source; it is the claim's comparator. -/
def specNextStages (stage : String) : List String :=
  if stage == "APPROVED" then ["QUEUED_FOR_EMBOSSING"]
  else if stage == "QUEUED_FOR_EMBOSSING" then ["IN_EMBOSSING"]
  else if stage == "IN_EMBOSSING" then
    ["EMBOSSING_COMPLETE", "EMBOSSING_FAILED"]
  else if stage == "EMBOSSING_COMPLETE" then ["DISPATCHED"]
  else if stage == "EMBOSSING_FAILED" then ["QUEUED_FOR_EMBOSSING"]
  else if stage == "DISPATCHED" then ["IN_TRANSIT"]
  else if stage == "IN_TRANSIT" then ["OUT_FOR_DELIVERY"]
  else if stage == "OUT_FOR_DELIVERY" then ["DELIVERED", "DELIVERY_FAILED"]
  else if stage == "DELIVERY_FAILED" then ["OUT_FOR_DELIVERY", "RETURNED"]
  else if stage == "RETURNED" then ["DESTROYED"]
  else []

/-- Modelled from the spec: `targetStage` is reachable from the current
stage per the §4.1 table. -/
def specReachable (current target : String) : Bool :=
  (specNextStages current).contains target

/-! ## Journeys as the service constructs and evolves them -/

/-- The journey documents producible by the service layer: the document
a field-valid `createCard` call constructs, and the result of any
successful `updateCardStatus` (truthy `status` and `source`) applied to
such a document. This is the "any sequence of create and valid advance
operations" of the invariant claims, stated on the documents the
service itself builds (persistence-layer validation is treated
separately, see the `createCard` enum defect). -/
inductive ServiceDoc : CardDoc → Prop
  | create (encrypt : String → String) (now : Nat) (data : CardData)
      (h : (truthy data.cardId && truthy data.customerId &&
            truthy data.mobileNumber && truthy data.panMasked) = true) :
      ServiceDoc (buildCardDoc encrypt now data)
  | advance (now : Nat) (sd : StatusData) {d : CardDoc}
      (hd : ServiceDoc d) (hs : truthy sd.status = true)
      (hsrc : truthy sd.source = true) :
      ServiceDoc (applyStatusUpdate now d sd).1

/-- The adjacent-event relation of the duration back-fill claim as the
code realizes durations: the *later* event carries the elapsed minutes
since the earlier one. -/
def durStep (e e' : JourneyEvent) : Prop :=
  e'.durationMinutes =
    some (jsRound ((e'.timestamp : Int) - (e.timestamp : Int)) 60000)

/-- Claim C3 as stated: every non-last event `i` carries
`durationMinutes = occurredAt(i+1) − occurredAt(i)` (rounded minutes),
and the last event carries none. -/
def ClaimC3 (d : CardDoc) : Prop :=
  (∀ i : Nat, ∀ hi : i + 1 < d.journey.length,
    (d.journey.get ⟨i, Nat.lt_of_succ_lt hi⟩).durationMinutes =
      some (jsRound (((d.journey.get ⟨i + 1, hi⟩).timestamp : Int) -
        ((d.journey.get ⟨i, Nat.lt_of_succ_lt hi⟩).timestamp : Int)) 60000)) ∧
  (∀ e : JourneyEvent, d.journey.getLast? = some e → e.durationMinutes = none)

/-- Claim C4 as stated: `retryCount` equals the number of
failure-stage events recorded in the journey. -/
def ClaimC4 (d : CardDoc) : Prop :=
  d.retryCount =
    (d.journey.filter (fun e =>
      e.stage == "EMBOSSING_FAILED" || e.stage == "DELIVERY_FAILED")).length

/-- Modelled from the spec: the search semantics the C8 claim states —
the query matches a journey when its id, subject id, or display name
contains it as a case-insensitive substring. -/
def specSearchMatch (q : String) (d : CardDoc) : Bool :=
  ciContains d.cardId q || ciContains d.customerId q ||
    ciContainsOpt d.customerName q

/-! ## Concrete sample data shared by witnesses and counterexamples -/

/-- A field-valid `createCard` request body. -/
def sampleData : CardData :=
  { cardId := some "CRD1", customerId := some "CUST1",
    customerName := some "Bob", mobileNumber := some "9876543210",
    panMasked := some "1234" }

/-- The document `createCard` builds from `sampleData` at time 0, with
the identity as the (opaque) encryption. -/
def doc0 : CardDoc := buildCardDoc (fun s => s) 0 sampleData

/-- A valid advance request: to `QUEUED_FOR_EMBOSSING`, no failure. -/
def sdQueue : StatusData :=
  { status := some "QUEUED_FOR_EMBOSSING", source := some "embossing_service" }

/-- An advance to a failure stage *without* a `failureReason`. -/
def sdFailNoReason : StatusData :=
  { status := some "EMBOSSING_FAILED", source := some "embossing_service" }

/-- `doc0` advanced to `QUEUED_FOR_EMBOSSING` 90 minutes later. -/
def doc90 : CardDoc := (applyStatusUpdate 5400000 doc0 sdQueue).1

/-- `doc0` advanced to `EMBOSSING_FAILED` (no reason) 90 minutes later. -/
def docFail : CardDoc := (applyStatusUpdate 5400000 doc0 sdFailNoReason).1

/-- A journey already at the terminal stage `DELIVERED`. -/
def docDelivered : CardDoc :=
  { cardId := "CRD9", customerId := "CUST9", mobileNumber := some "ENC",
    panMasked := "9999", currentStatus := "DELIVERED",
    journey := [{ stage := "DELIVERED", timestamp := 0,
                  source := "delivery_service" }] }

/-- A journey whose `cardId` contains `CARD1` but whose other searched
fields do not. -/
def docCard123 : CardDoc :=
  { cardId := "CARD123", customerId := "C1", customerName := some "Bob",
    mobileNumber := some "ENC", panMasked := "1234",
    currentStatus := "APPROVED" }

/-- A status update to `APPROVED` — not reachable from `DELIVERED` in
the spec's table. -/
def sdToApproved : StatusData :=
  { status := some "APPROVED", source := some "ops_console" }

/-! ## Theorems -/

/-- C1 (counterexample): `APPROVED` is not reachable from `DELIVERED`
per the spec's state-machine table, yet `updateCardStatus` on a
`DELIVERED` journey succeeds: the event is appended (journey grows to
length 2), `currentStatus` silently becomes `APPROVED`, and a
`status_updated` notification is broadcast — no `InvalidTransition`,
and plenty of side effects. -/
theorem updateCardStatus_accepts_unreachable_target :
    specReachable "DELIVERED" "APPROVED" = false ∧
    (updateCardStatus 60000 [docDelivered] "CRD9" sdToApproved).toOption.map
        (fun r => (r.2.1.currentStatus, r.2.1.journey.length, r.2.2.type)) =
      some ("APPROVED", 2, "status_updated") := by
  decide

/-- C1 (amended): `updateCardStatus` performs no reachability check at
all. Whenever `status` and `source` are non-empty and the card id is
found, the call succeeds regardless of the transition table: the new
event is appended, `currentStatus` becomes the target stage, and a
`status_updated` broadcast is emitted. -/
theorem updateCardStatus_no_transition_validation
    (now : Nat) (db : List CardDoc) (cardId : String) (sd : StatusData)
    (d : CardDoc) (hs : truthy sd.status = true)
    (hsrc : truthy sd.source = true)
    (hfind : db.find? (fun c => c.cardId == cardId) = some d) :
    ∃ db' msg,
      updateCardStatus now db cardId sd =
        .ok (db', (applyStatusUpdate now d sd).1, msg) ∧
      (applyStatusUpdate now d sd).1.currentStatus = sd.status.getD "" ∧
      (applyStatusUpdate now d sd).1.journey =
        d.journey ++ [mkStatusEvent now d sd] ∧
      msg.type = "status_updated" := by
  refine ⟨db.map (fun c => if c.cardId == cardId then
            (applyStatusUpdate now d sd).1 else c),
          (applyStatusUpdate now d sd).2, ?_, rfl, rfl, rfl⟩
  simp [updateCardStatus, hs, hsrc, hfind]

/-- C1 (witness): the amended theorem applied to the `DELIVERED`
journey and the unreachable target `APPROVED`. -/
theorem updateCardStatus_no_transition_validation_witness :
    ∃ db' msg,
      updateCardStatus 60000 [docDelivered] "CRD9" sdToApproved =
        .ok (db', (applyStatusUpdate 60000 docDelivered sdToApproved).1, msg) ∧
      (applyStatusUpdate 60000 docDelivered sdToApproved).1.currentStatus =
        sdToApproved.status.getD "" ∧
      (applyStatusUpdate 60000 docDelivered sdToApproved).1.journey =
        docDelivered.journey ++
          [mkStatusEvent 60000 docDelivered sdToApproved] ∧
      msg.type = "status_updated" :=
  updateCardStatus_no_transition_validation 60000 [docDelivered] "CRD9"
    sdToApproved docDelivered (by decide) (by decide) (by decide)

/-- C2: after any sequence of create and valid advance operations, the
journey is non-empty and `currentStatus` equals the stage of the last
journey event. -/
theorem currentStatus_eq_last_event_stage (d : CardDoc)
    (hd : ServiceDoc d) :
    d.journey ≠ [] ∧
      (d.journey.getLast?).map JourneyEvent.stage = some d.currentStatus := by
  induction hd with
  | create encrypt now data h =>
    simp [buildCardDoc]
  | advance now sd hd hs hsrc ih =>
    refine ⟨by simp [applyStatusUpdate], ?_⟩
    simp [applyStatusUpdate, List.getLast?_concat, mkStatusEvent]

/-- C2 (witness): the invariant at the concrete journey `doc90`
(create, then a valid advance to `QUEUED_FOR_EMBOSSING`). -/
theorem currentStatus_eq_last_event_stage_witness :
    doc90.journey ≠ [] ∧
      (doc90.journey.getLast?).map JourneyEvent.stage =
        some doc90.currentStatus :=
  currentStatus_eq_last_event_stage doc90
    (ServiceDoc.advance 5400000 sdQueue
      (ServiceDoc.create (fun s => s) 0 sampleData (by decide))
      (by decide) (by decide))

/-- C3 (counterexample): on the concrete journey `doc90` (created at
time 0, advanced 90 minutes later) the last event carries
`durationMinutes = 90` — the claim requires the last event to carry
none (and the back-fill onto the previous event never happens). -/
theorem duration_not_backfilled :
    ServiceDoc doc90 ∧ ¬ ClaimC3 doc90 := by
  refine ⟨ServiceDoc.advance 5400000 sdQueue
    (ServiceDoc.create (fun s => s) 0 sampleData (by decide))
    (by decide) (by decide), ?_⟩
  rintro ⟨-, hlast⟩
  have hget : doc90.journey.getLast? = some (mkStatusEvent 5400000 doc0 sdQueue) :=
    rfl
  have := hlast _ hget
  exact absurd this (by decide)

/-- C3 (amended): the elapsed duration is recorded on the *newly
appended* event, not back-filled: for every service-produced journey,
the first event carries no `durationMinutes`, and every later event `i`
carries `occurredAt(i) − occurredAt(i−1)` in rounded minutes (stated as
the adjacent-pair chain `durStep`). No event is ever mutated after
being written. -/
theorem duration_recorded_on_new_event (d : CardDoc)
    (hd : ServiceDoc d) :
    (∀ e, d.journey.head? = some e → e.durationMinutes = none) ∧
      List.Chain' durStep d.journey := by
  induction hd with
  | create encrypt now data h =>
    constructor
    · intro e he
      simp [buildCardDoc] at he
      simp [← he]
    · simp [buildCardDoc]
  | advance now sd hd hs hsrc ih =>
    obtain ⟨ih1, ih2⟩ := ih
    rename_i d
    constructor
    · intro e he
      rw [show (applyStatusUpdate now d sd).1.journey =
            d.journey ++ [mkStatusEvent now d sd] from rfl] at he
      cases hj : d.journey with
      | nil =>
        rw [hj] at he
        simp at he
        rw [← he]
        simp [mkStatusEvent, hj]
      | cons e0 rest =>
        rw [hj] at he
        simp at he
        exact ih1 e (by rw [hj]; simpa using he)
    · rw [show (applyStatusUpdate now d sd).1.journey =
            d.journey ++ [mkStatusEvent now d sd] from rfl]
      rw [List.chain'_append]
      refine ⟨ih2, by simp, ?_⟩
      intro x hx y hy
      simp at hy
      subst hy
      simp only [durStep, mkStatusEvent]
      simp [Option.mem_def] at hx
      rw [hx]
      simp

/-- C3 (witness): the amended duration semantics at the concrete
journey `doc90`. -/
theorem duration_recorded_on_new_event_witness :
    (∀ e, doc90.journey.head? = some e → e.durationMinutes = none) ∧
      List.Chain' durStep doc90.journey :=
  duration_recorded_on_new_event doc90
    (ServiceDoc.advance 5400000 sdQueue
      (ServiceDoc.create (fun s => s) 0 sampleData (by decide))
      (by decide) (by decide))

/-- C4 (counterexample): the concrete journey `docFail` advanced to the
failure stage `EMBOSSING_FAILED` with no `failureReason` in the request
keeps `retryCount = 0`, while the journey records one failure-stage
event — the claimed equality fails. -/
theorem retryCount_ignores_failure_stage :
    ServiceDoc docFail ∧ ¬ ClaimC4 docFail := by
  refine ⟨ServiceDoc.advance 5400000 sdFailNoReason
    (ServiceDoc.create (fun s => s) 0 sampleData (by decide))
    (by decide) (by decide), ?_⟩
  unfold ClaimC4
  decide

/-- C4 (amended): `retryCount` is incremented exactly on status updates
that carry a non-empty `failureReason` — independent of the target
stage — so it equals the number of journey events recorded with a
non-empty `failureReason`. -/
theorem retryCount_counts_failureReason_events (d : CardDoc)
    (hd : ServiceDoc d) :
    d.retryCount =
      ((d.journey.filter (fun e => truthy e.failureReason)).length : Int) := by
  induction hd with
  | create encrypt now data h =>
    simp [buildCardDoc, truthy]
  | advance now sd hd hs hsrc ih =>
    rename_i d
    rw [show (applyStatusUpdate now d sd).1.journey =
          d.journey ++ [mkStatusEvent now d sd] from rfl,
        show (applyStatusUpdate now d sd).1.retryCount =
          (if truthy sd.failureReason then d.retryCount + 1
           else d.retryCount) from rfl]
    rw [List.filter_append]
    cases htr : truthy sd.failureReason with
    | false =>
      simp [mkStatusEvent, htr, ih]
    | true =>
      simp [mkStatusEvent, htr, ih]

/-- C4 (witness): the amended retry-count semantics at `docFail`: no
`failureReason` was supplied, so `retryCount` stays 0 even though the
target was a failure stage. -/
theorem retryCount_counts_failureReason_events_witness :
    docFail.retryCount =
      ((docFail.journey.filter (fun e => truthy e.failureReason)).length : Int) :=
  retryCount_counts_failureReason_events docFail
    (ServiceDoc.advance 5400000 sdFailNoReason
      (ServiceDoc.create (fun s => s) 0 sampleData (by decide))
      (by decide) (by decide))

/-- C5: `createCard` sets `currentStatus` and the first event's `stage`
to `USER_CREATED`, a value absent from the model's own schema enum, so
`save()` is rejected by mongoose validation for *every* field-valid
request: no journey with an initial event is ever created. The stage
the schema itself would default to is `APPROVED`. -/
theorem createCard_initial_stage_rejected (encrypt : String → String)
    (now : Nat) (db : List CardDoc) (data : CardData)
    (h : (truthy data.cardId && truthy data.customerId &&
          truthy data.mobileNumber && truthy data.panMasked) = true) :
    createCard encrypt now db data = .error .validationError ∧
    stageEnum.contains (buildCardDoc encrypt now data).currentStatus = false ∧
    (buildCardDoc encrypt now data).journey.all
      (fun e => stageEnum.contains e.stage) = false := by
  have hval : validateDoc (buildCardDoc encrypt now data) = false := by
    simp [validateDoc, buildCardDoc, stageEnum]
  refine ⟨?_, by simp [buildCardDoc, stageEnum], by simp [buildCardDoc, stageEnum]⟩
  simp [createCard, h, hval]

/-- C5 (witness): the rejection at the concrete field-valid request
`sampleData` against an empty collection. -/
theorem createCard_initial_stage_rejected_witness :
    createCard (fun s => s) 0 [] sampleData = .error .validationError ∧
    stageEnum.contains (buildCardDoc (fun s => s) 0 sampleData).currentStatus
      = false ∧
    (buildCardDoc (fun s => s) 0 sampleData).journey.all
      (fun e => stageEnum.contains e.stage) = false :=
  createCard_initial_stage_rejected (fun s => s) 0 [] sampleData (by decide)

/-- C6: on the stage group with durations `[1, 2, 3, 4, 200]` — which
survives both pipeline filters (5 samples, rounded mean 42 > 30) — the
persisted `medianDurationMinutes` is `Math.round((min + max) / 2) =
101`, while the true median of the sorted duration list is 3; and the
pipeline as written carries no valid 95th-percentile slice position
(the offset `Math.floor("$count" * 0.95)` is evaluated in JavaScript to
`NaN` when the pipeline object is built). -/
theorem bottleneck_median_not_true_median :
    groupSurvives [1, 2, 3, 4, 200] = true ∧
    persistedMedian [1, 2, 3, 4, 200] = 101 ∧
    trueMedian [1, 2, 3, 4, 200] = 3 ∧
    (analyzeGroup [1, 2, 3, 4, 200]).p95SlicePos = none := by
  refine ⟨by decide, by decide, ?_, rfl⟩
  have hs : ([1, 2, 3, 4, 200] : List Int).insertionSort (· ≤ ·) =
      [1, 2, 3, 4, 200] := rfl
  unfold trueMedian
  rw [hs]
  norm_num

/-- The claim's example group: 10 recorded durations, 4 of which
exceed the 480-minute delay threshold. -/
def exampleGroup10 : List Int :=
  [100, 100, 100, 100, 100, 100, 500, 500, 500, 500]

/-- C7: the severity switch classifies exactly by the delay ratio
`delayedCount / count` with the thresholds 0.30 / 0.20 / 0.10, the
analysis pipeline computes severity from exactly that ratio, and the
claim's example — a group of 10 events of which 4 exceed 480 minutes —
is classified `critical`. -/
theorem severity_classified_by_delay_ratio (dc c : Nat) (hc : 0 < c) :
    (((severityOf dc c = "critical") ↔ (dc : ℚ) / c > 3/10) ∧
      ((severityOf dc c = "high") ↔
        ((dc : ℚ) / c ≤ 3/10 ∧ (dc : ℚ) / c > 1/5)) ∧
      ((severityOf dc c = "medium") ↔
        ((dc : ℚ) / c ≤ 1/5 ∧ (dc : ℚ) / c > 1/10)) ∧
      ((severityOf dc c = "low") ↔ (dc : ℚ) / c ≤ 1/10)) ∧
    (∀ l : List Int, (analyzeGroup l).severity =
      severityOf (l.countP (fun x => decide (x > 480))) l.length) ∧
    (analyzeGroup exampleGroup10).delayedCount = 4 ∧
    (analyzeGroup exampleGroup10).count = 10 ∧
    (analyzeGroup exampleGroup10).severity = "critical" := by
  have hcq : (0 : ℚ) < c := by exact_mod_cast hc
  have key : ∀ a b : Nat, 0 < b →
      (((a : ℚ) / b < (dc : ℚ) / c) ↔ a * c < dc * b) := by
    intro a b hb
    have hbq : (0 : ℚ) < b := by exact_mod_cast hb
    rw [div_lt_div_iff₀ hbq hcq]
    exact_mod_cast Iff.rfl
  have k1 := key 3 10 (by norm_num)
  have k2 := key 1 5 (by norm_num)
  have k3 := key 1 10 (by norm_num)
  refine ⟨?_, fun l => rfl, by decide, by decide, by decide⟩
  unfold severityOf
  split_ifs with h1 h2 h3
  · exact ⟨iff_of_true rfl (k1.mpr (by omega)),
      iff_of_false (by decide)
        (fun h => absurd (k1.mpr (by omega)) (not_lt.mpr h.1)),
      iff_of_false (by decide)
        (fun h => absurd (k1.mpr (by omega))
          (not_lt.mpr (le_trans h.1 (by norm_num)))),
      iff_of_false (by decide)
        (fun h => absurd (k1.mpr (by omega))
          (not_lt.mpr (le_trans h (by norm_num))))⟩
  · exact ⟨iff_of_false (by decide) (fun h => by
        have := k1.mp h; omega),
      iff_of_true rfl ⟨not_lt.mp (fun h => by have := k1.mp h; omega),
        k2.mpr (by omega)⟩,
      iff_of_false (by decide)
        (fun h => absurd (k2.mpr (by omega)) (not_lt.mpr h.1)),
      iff_of_false (by decide)
        (fun h => absurd (k2.mpr (by omega))
          (not_lt.mpr (le_trans h (by norm_num))))⟩
  · exact ⟨iff_of_false (by decide) (fun h => by
        have := k1.mp h; omega),
      iff_of_false (by decide) (fun h => by have := k2.mp h.2; omega),
      iff_of_true rfl ⟨not_lt.mp (fun h => by have := k2.mp h; omega),
        k3.mpr (by omega)⟩,
      iff_of_false (by decide)
        (fun h => absurd (k3.mpr (by omega)) (not_lt.mpr h))⟩
  · exact ⟨iff_of_false (by decide) (fun h => by
        have := k1.mp h; omega),
      iff_of_false (by decide) (fun h => by have := k2.mp h.2; omega),
      iff_of_false (by decide) (fun h => by have := k3.mp h.2; omega),
      iff_of_true rfl (not_lt.mp (fun h => by have := k3.mp h; omega))⟩

/-- C7 (witness): the classification at the claim's example ratio
4 / 10: severity is `critical`. -/
theorem severity_classified_by_delay_ratio_witness :
    0 < 10 ∧ severityOf 4 10 = "critical" ∧ (4 : ℚ) / 10 > 3/10 :=
  ⟨by decide,
   ((severity_classified_by_delay_ratio 4 10 (by decide)).1.1).mpr
     (by norm_num),
   by norm_num⟩

/-- C8 (counterexample): the five-character query `CARD1` is a
case-insensitive substring of `docCard123`'s id `CARD123` (the
spec-level match predicate holds), yet `searchCards` returns the empty
list: the query does not start with `CRD`, so the general-text branch
searches only `customerName`/`customerId`/`applicationId` — never
`cardId`. -/
theorem searchCards_misses_cardId_substring :
    ("CARD1".length ≥ 3) = True ∧
    specSearchMatch "CARD1" docCard123 = true ∧
    searchCards "CARD1" [docCard123] = .ok [] := by
  refine ⟨by decide, by decide, ?_⟩
  rfl

/-- C8 (amended): queries shorter than 3 characters fail validation;
for longer queries the searched fields depend on the query's shape
(`matchesSearch`): a `CRD`-prefixed query matches `cardId` as a
case-insensitive substring, a `*`-containing query of length ≥ 8
matches `panMasked` exactly, an all-digit query of length ≥ 4 matches
`customerName`/`customerId`, and any other query matches
`customerName`/`customerId`/`applicationId`; the result is drawn from
the store, ordered by `createdAt` descending, and capped at 10. -/
theorem searchCards_shape_dependent (q : String) (db : List CardDoc) :
    (q.length < 3 → searchCards q db = .error .queryTooShort) ∧
    (∀ l, searchCards q db = .ok l →
      l.length ≤ 10 ∧ ∀ d ∈ l, d ∈ db ∧ matchesSearch q d = true) := by
  constructor
  · intro hq
    simp [searchCards, hq]
  · intro l hl
    by_cases hq : q.length < 3
    · simp [searchCards, hq] at hl
    · simp only [searchCards, hq, if_false, Except.ok.injEq] at hl
      subst hl
      constructor
      · exact List.length_take_le 10 _
      · intro d hd
        have hd1 : d ∈ (db.filter (matchesSearch q)).insertionSort
            (fun a b => b.createdAt ≤ a.createdAt) := List.take_subset _ _ hd
        have hd2 : d ∈ db.filter (matchesSearch q) :=
          (List.perm_insertionSort _ _).mem_iff.mp hd1
        have := List.mem_filter.mp hd2
        exact ⟨this.1, this.2⟩

/-- C8 (witness): the short query `ab` fails validation, and the
`CRD`-prefixed query `CRD9` returns `docDelivered`, which is in the
store and matches the shape-dependent criteria. -/
theorem searchCards_shape_dependent_witness :
    searchCards "ab" [docDelivered] = .error .queryTooShort ∧
    ([docDelivered].length ≤ 10 ∧
      ∀ d ∈ [docDelivered], d ∈ [docDelivered] ∧
        matchesSearch "CRD9" d = true) :=
  ⟨(searchCards_shape_dependent "ab" [docDelivered]).1 (by decide),
   (searchCards_shape_dependent "CRD9" [docDelivered]).2 [docDelivered] rfl⟩

/-- C9 (counterexample): broadcasting to the set {an open handle whose
write fails, a non-open handle} removes the failing open handle but
*keeps* the non-open handle in the set (it is merely skipped), and
neither receives the event — contradicting "a non-writable handle is
removed from the set during that broadcast". -/
theorem broadcast_keeps_nonwritable_handle :
    broadcastFanout [⟨0, true, false⟩, ⟨1, false, true⟩] =
      ([], [⟨1, false, true⟩]) ∧
    (⟨1, false, true⟩ : WSClient).isOpen = false := by
  exact ⟨rfl, rfl⟩

/-- C9 (amended): during a broadcast a handle receives the serialized
event iff it is open *and* its write succeeds; a handle is removed
during the broadcast iff it is open and its write fails; non-open
handles are skipped (kept) and are only dropped by the periodic
cleanup sweep, after which exactly the open handles remain. -/
theorem broadcast_sends_and_removes :
    ∀ clients : List WSClient,
      (broadcastFanout clients).1 =
        clients.filter (fun c => c.isOpen && c.sendOk) ∧
      (broadcastFanout clients).2 =
        clients.filter (fun c => !(c.isOpen && !c.sendOk)) ∧
      cleanupSweep (broadcastFanout clients).2 =
        clients.filter (fun c => c.isOpen && c.sendOk) := by
  intro clients
  induction clients with
  | nil => exact ⟨rfl, rfl, rfl⟩
  | cons c rest ih =>
    obtain ⟨ih1, ih2, ih3⟩ := ih
    cases ho : c.isOpen <;> cases hs : c.sendOk <;>
      simp [broadcastFanout, cleanupSweep, List.filter_cons, ho, hs,
        ih1, ih2, ← ih3]

/-- Helper for C10: whatever `sanitizeCardData` puts into
`mobileDisplay` is the fixed mask followed by at most four characters
(the fallback tail `**`, or JavaScript `slice(-4)` of the decrypted
number). -/
theorem sanitize_mobileDisplay_masked (decrypt : String → Option String)
    (d : CardDoc) (str : String)
    (h : (sanitizeCardData decrypt d).mobileDisplay = some str) :
    ∃ tail : String, str = "+91-****-**" ++ tail ∧ tail.length ≤ 4 := by
  unfold sanitizeCardData at h
  simp only at h
  by_cases ht : truthy d.mobileNumber
  · rw [if_pos ht] at h
    cases hd : decrypt (d.mobileNumber.getD "") with
    | some plain =>
      rw [hd] at h
      refine ⟨sliceLast4 plain, by injection h with h; rw [← h], ?_⟩
      show (String.mk ((plain.toList).drop (plain.toList.length - 4))).length ≤ 4
      have : (String.mk ((plain.toList).drop (plain.toList.length - 4))).length =
          ((plain.toList).drop (plain.toList.length - 4)).length := rfl
      rw [this, List.length_drop]
      omega
    | none =>
      rw [hd] at h
      refine ⟨"**", by injection h with h; rw [← h]; rfl, by decide⟩
  · rw [if_neg ht] at h
    exact absurd h (by simp)

/-- C10: every card object returned by the public operations
(`getCardById`, `createCard`, `updateCardStatus`, `searchCards`) is the
`sanitizeCardData` image of a stored document — a record from which the
encrypted `mobileNumber` and `address` fields have been deleted — and
its `mobileDisplay`, when present, is the fixed mask `+91-****-**`
followed by at most the last four characters of the decrypted number. -/
theorem public_ops_mask_pii
    (decrypt : String → Option String) (encrypt : String → String)
    (now : Nat) (db : List CardDoc) (cardId q : String) (data : CardData)
    (sd : StatusData) (s : SanitizedCard)
    (h : getCardById decrypt db cardId = .ok s ∨
         createCardApi decrypt encrypt now db data = .ok s ∨
         updateCardStatusApi decrypt now db cardId sd = .ok s ∨
         ∃ l, searchCardsApi decrypt q db = .ok l ∧ s ∈ l) :
    (∃ d : CardDoc, s = sanitizeCardData decrypt d) ∧
    ∀ str, s.mobileDisplay = some str →
      ∃ tail : String, str = "+91-****-**" ++ tail ∧ tail.length ≤ 4 := by
  have himg : ∃ d : CardDoc, s = sanitizeCardData decrypt d := by
    rcases h with h | h | h | ⟨l, hl, hs⟩
    · unfold getCardById at h
      cases hf : db.find? (fun c => c.cardId == cardId) with
      | none => rw [hf] at h; exact absurd h (by simp)
      | some d => rw [hf] at h; exact ⟨d, by injection h with h; rw [h]⟩
    · unfold createCardApi at h
      cases hc : createCard encrypt now db data with
      | error e => rw [hc] at h; exact absurd h (by simp [Except.map])
      | ok r =>
        rw [hc] at h
        exact ⟨r.2.1, by
          simp only [Except.map] at h; injection h with h; rw [h]⟩
    · unfold updateCardStatusApi at h
      cases hc : updateCardStatus now db cardId sd with
      | error e => rw [hc] at h; exact absurd h (by simp [Except.map])
      | ok r =>
        rw [hc] at h
        exact ⟨r.2.1, by
          simp only [Except.map] at h; injection h with h; rw [h]⟩
    · unfold searchCardsApi at hl
      cases hc : searchCards q db with
      | error e => rw [hc] at hl; exact absurd hl (by simp [Except.map])
      | ok l0 =>
        rw [hc] at hl
        simp only [Except.map] at hl
        injection hl with hl
        rw [← hl] at hs
        obtain ⟨d, _, hd⟩ := List.mem_map.mp hs
        exact ⟨d, hd.symm⟩
  obtain ⟨d, rfl⟩ := himg
  exact ⟨⟨d, rfl⟩,
    fun str hstr => sanitize_mobileDisplay_masked decrypt d str hstr⟩

/-- C10 (witness): `getCardById` on `docDelivered` with a decryption
returning `9876543210` exposes exactly the mask plus the last four
digits `3210`. -/
theorem public_ops_mask_pii_witness :
    ∃ tail : String,
      "+91-****-**3210" = "+91-****-**" ++ tail ∧ tail.length ≤ 4 :=
  (public_ops_mask_pii (fun _ => some "9876543210") (fun s => s) 0
      [docDelivered] "CRD9" "xyz" {} {}
      (sanitizeCardData (fun _ => some "9876543210") docDelivered)
      (Or.inl rfl)).2
    "+91-****-**3210" rfl

end CardTracker
